import Mathlib

/-!
Verification of the role-scoped authorization and audit-trail pipeline of the
SparkCare care-home application: the token codec (`generateTokens`, JWT
verification), the principal resolver and request gate (`authenticateToken`),
the permission evaluator (`hasPermission`, `requireResidentAccess`, the
daily-log edit check), and the audit recorder (`redactSensitiveData`,
`auditCareEvent`, the `auditLogger` middleware).  Each definition is a direct
shallow embedding of the corresponding JavaScript function; timestamps are
milliseconds (`Date.now()`) or whole seconds (JWT `iat`/`exp`) as in the
source.
-/

namespace SparkCare

/-! ## JavaScript values

The audit logger walks arbitrary JSON-like JavaScript values.  `JVal` models
them; `JFields` is the key/value list of an object, `JList` the element list of
an array.
-/

mutual

inductive JVal : Type where
  | str (s : String)
  | num (n : Int)
  | bool (b : Bool)
  | null
  | arr (elems : JList)
  | obj (fields : JFields)

inductive JList : Type where
  | nil
  | cons (head : JVal) (tail : JList)

inductive JFields : Type where
  | nil
  | cons (key : String) (val : JVal) (tail : JFields)

end

/-- JavaScript truthiness of a value (`if (redacted[field])`): empty string,
zero, `false` and `null` are falsy; every object and array is truthy. -/
def truthy : JVal → Bool
  | .str s => s != ""
  | .num n => n != 0
  | .bool b => b
  | .null => false
  | .arr _ => true
  | .obj _ => true

/-- The JavaScript test `typeof v === 'object' && v !== null`: true exactly for
objects and arrays. -/
def isObjectLike : JVal → Bool
  | .arr _ => true
  | .obj _ => true
  | _ => false

/-- auditLogger.js `sensitiveFields`: the fixed denylist of keys redacted from
audit payloads. -/
def sensitiveFields : List String :=
  ["password", "token", "nhsNumber", "nationalInsuranceNumber", "dateOfBirth",
   "emergencyContact", "nextOfKin", "medicalHistory", "medications"]

mutual

/-- auditLogger.js `redactSensitiveData`: non-objects are returned unchanged
(the `!data || typeof data !== 'object'` early return); an object is shallow
copied, each denylisted key with a truthy value is replaced by the marker
`[REDACTED]`, and then every remaining object-valued entry is redacted
recursively.  An array input is spread (`{ ...data }`) into an object keyed by
the decimal indices before the same processing. -/
def redactSensitiveData : JVal → JVal
  | .obj fields => .obj (redactFields fields)
  | .arr elems => .obj (redactElems 0 elems)
  | .str s => .str s
  | .num n => .num n
  | .bool b => .bool b
  | .null => .null

/-- Per-entry processing of an object's fields: the denylist pass followed by
the recursive pass, expressed entry by entry (object keys are unique, so the
two source loops act on each entry independently). -/
def redactFields : JFields → JFields
  | .nil => .nil
  | .cons k v rest =>
    .cons k
      (if sensitiveFields.contains k && truthy v then .str "[REDACTED]"
       else if isObjectLike v then redactSensitiveData v
       else v)
      (redactFields rest)

/-- The same processing for an array spread into an index-keyed object. -/
def redactElems (i : Nat) : JList → JFields
  | .nil => .nil
  | .cons v rest =>
    .cons (toString i)
      (if sensitiveFields.contains (toString i) && truthy v then .str "[REDACTED]"
       else if isObjectLike v then redactSensitiveData v
       else v)
      (redactElems (i + 1) rest)

end

/-- An object-like value stays object-like after redaction (both objects and
arrays come back as objects). -/
theorem isObjectLike_redact (v : JVal) (h : isObjectLike v = true) :
    isObjectLike (redactSensitiveData v) = true := by
  cases v <;> simp_all [isObjectLike, redactSensitiveData]

/-- Objects and arrays are truthy, so a falsy value is not object-like. -/
theorem not_isObjectLike_of_not_truthy (v : JVal) (h : truthy v = false) :
    isObjectLike v = false := by
  cases v <;> simp_all [truthy, isObjectLike]

/-- The redaction marker is a truthy, non-object value. -/
theorem truthy_marker : truthy (JVal.str "[REDACTED]") = true := by decide

/-- One entry of an already-processed object is left unchanged by a second
pass, given idempotence on the entry's value. -/
theorem redactEntry_step (k : String) (v : JVal)
    (ih : redactSensitiveData (redactSensitiveData v) = redactSensitiveData v) :
    (if sensitiveFields.contains k &&
        truthy (if sensitiveFields.contains k && truthy v then JVal.str "[REDACTED]"
                else if isObjectLike v then redactSensitiveData v else v) then
       JVal.str "[REDACTED]"
     else if isObjectLike (if sensitiveFields.contains k && truthy v then JVal.str "[REDACTED]"
                           else if isObjectLike v then redactSensitiveData v else v) then
       redactSensitiveData (if sensitiveFields.contains k && truthy v then JVal.str "[REDACTED]"
                            else if isObjectLike v then redactSensitiveData v else v)
     else (if sensitiveFields.contains k && truthy v then JVal.str "[REDACTED]"
           else if isObjectLike v then redactSensitiveData v else v)) =
    (if sensitiveFields.contains k && truthy v then JVal.str "[REDACTED]"
     else if isObjectLike v then redactSensitiveData v else v) := by
  by_cases hs : k ∈ sensitiveFields
  · by_cases ht : truthy v = true
    · simp [hs, ht, truthy_marker, isObjectLike]
    · have ht' : truthy v = false := by
        cases h : truthy v
        · rfl
        · exact absurd h ht
      have ho : isObjectLike v = false := not_isObjectLike_of_not_truthy v ht'
      simp [hs, ht', ho]
  · by_cases ho : isObjectLike v = true
    · simp [hs, ho, isObjectLike_redact v ho, ih]
    · have ho' : isObjectLike v = false := by
        cases h : isObjectLike v
        · rfl
        · exact absurd h ho
      simp [hs, ho']

mutual

/-- Redaction is idempotent on every value. -/
theorem redact_idem : (v : JVal) →
    redactSensitiveData (redactSensitiveData v) = redactSensitiveData v
  | .obj fields => by
    simp [redactSensitiveData, redactFields_idem fields]
  | .arr elems => by
    simp [redactSensitiveData, redactFields_elems 0 elems]
  | .str s => rfl
  | .num n => rfl
  | .bool b => rfl
  | .null => rfl

/-- Redaction is idempotent on object field lists. -/
theorem redactFields_idem : (fs : JFields) →
    redactFields (redactFields fs) = redactFields fs
  | .nil => rfl
  | .cons k v rest => by
    simp only [redactFields]
    exact congrArg₂ (JFields.cons k)
      (redactEntry_step k v (redact_idem v)) (redactFields_idem rest)

/-- A spread-and-processed array is a fixed point of the field pass. -/
theorem redactFields_elems : (i : Nat) → (xs : JList) →
    redactFields (redactElems i xs) = redactElems i xs
  | _, .nil => rfl
  | i, .cons v rest => by
    simp only [redactElems, redactFields]
    exact congrArg₂ (JFields.cons (toString i))
      (redactEntry_step (toString i) v (redact_idem v))
      (redactFields_elems (i + 1) rest)

end

/-! ## Token codec

Tokens are JSON Web Tokens signed with the process-wide `JWT_SECRET`.  A
signed token is modelled as its decoded payload together with the secret it
was signed with; `jwtVerify` checks the signature (secret equality) and then
the `exp` claim against the clock in whole seconds, exactly as the
`jsonwebtoken` library does (expired when `clock >= exp`).
-/

/-- The JWT claims used by this application.  `generateTokens` signs the
principal id under the key `id`; the key `userId` is what the request gate
later reads.  `iat` and `exp` are whole seconds since the epoch. -/
structure TokenPayload where
  id : Option String
  userId : Option String
  email : Option String
  role : Option String
  facilityId : Option String
  iat : Nat
  exp : Nat
deriving DecidableEq

/-- A token produced by `jwt.sign(payload, secret, ...)`. -/
structure SignedToken where
  payload : TokenPayload
  secret : String
deriving DecidableEq

/-- The two verification failures of `jsonwebtoken`: bad signature
(`JsonWebTokenError`) and past expiry (`TokenExpiredError`). -/
inductive JwtError where
  | jsonWebTokenError
  | tokenExpiredError
deriving DecidableEq

/-- `jwt.verify(token, secret)` at clock time `clockSec` (seconds): signature
first, then expiry (`TokenExpiredError` when `clockSec ≥ exp`). -/
def jwtVerify (t : SignedToken) (secret : String) (clockSec : Nat) :
    Except JwtError TokenPayload :=
  if t.secret != secret then .error .jsonWebTokenError
  else if t.payload.exp ≤ clockSec then .error .tokenExpiredError
  else .ok t.payload

/-- Default access-token lifetime: `JWT_EXPIRES_IN || '7d'`, in seconds. -/
def accessTokenExpiresInSec : Nat := 7 * 24 * 60 * 60

/-- Default refresh-token lifetime: `JWT_REFRESH_EXPIRES_IN || '30d'`, in
seconds. -/
def refreshTokenExpiresInSec : Nat := 30 * 24 * 60 * 60

/-! ## Staff records and the permission evaluator -/

/-- The closed `accessLevel` enumeration of the Staff schema
(`['Carer', 'Senior', 'Admin']`). -/
inductive AccessLevel where
  | carer
  | senior
  | admin
deriving DecidableEq

/-- A staff record as the gate sees it: `Staff.findById` result.  Timestamps
(`lockUntil`, `passwordChangedAt`, `createdAt`) are milliseconds since the
epoch (`Date.getTime()`). -/
structure StaffUser where
  _id : String
  email : String
  role : String
  accessLevel : AccessLevel
  facilityId : String
  isActive : Bool
  accountLocked : Bool
  lockUntil : Option Nat
  passwordChangedAt : Option Nat
  createdAt : Nat
  assignedResidents : List String
deriving DecidableEq

/-- Staff.js `isAccountLocked` virtual:
`!!(this.accountLocked && this.lockUntil && this.lockUntil > Date.now())`. -/
def isAccountLocked (u : StaffUser) (nowMs : Nat) : Bool :=
  u.accountLocked &&
    (match u.lockUntil with
     | some t => decide (nowMs < t)
     | none => false)

/-- Staff.js `hasPermission`: the static role-to-capability table. -/
def permissionsTable : AccessLevel → List String
  | .carer => ["view_residents", "create_logs", "view_care_plans", "complete_tasks"]
  | .senior => ["view_residents", "create_logs", "view_care_plans", "complete_tasks",
                "create_care_plans", "view_reports", "manage_tasks"]
  | .admin => ["*"]

/-- Staff.js `hasPermission(permission)`: the wildcard entry grants
everything, otherwise membership in the role's capability list. -/
def hasPermission (accessLevel : AccessLevel) (permission : String) : Bool :=
  let userPermissions := permissionsTable accessLevel
  userPermissions.contains "*" || userPermissions.contains permission

/-- `Staff.findById`: resolve a record by id; an absent id resolves no
record. -/
def findById (db : List StaffUser) : Option String → Option StaffUser
  | none => none
  | some i => db.find? (fun u => u._id == i)

/-! ## Token issuance (auth.js `generateTokens`) -/

/-- auth.js `generateTokens(user)`: the access token signs
`{ id, email, role, facilityId }` with the default 7-day expiry, the refresh
token signs `{ id }` with the default 30-day expiry.  `jsonwebtoken` stamps
`iat` with the clock in whole seconds. -/
def generateTokens (user : StaffUser) (secret : String) (nowMs : Nat) :
    SignedToken × SignedToken :=
  let nowSec := nowMs / 1000
  let accessToken : SignedToken :=
    { payload := { id := some user._id, userId := none, email := some user.email,
                   role := some user.role, facilityId := some user.facilityId,
                   iat := nowSec, exp := nowSec + accessTokenExpiresInSec },
      secret := secret }
  let refreshToken : SignedToken :=
    { payload := { id := some user._id, userId := none, email := none,
                   role := none, facilityId := none,
                   iat := nowSec, exp := nowSec + refreshTokenExpiresInSec },
      secret := secret }
  (accessToken, refreshToken)

/-! ## The request gate (middleware `authenticateToken`) -/

/-- Outcome of the `authenticateToken` middleware: either `next()` is called
with `req.user` set, or a terminal response with a status code, error label
and message is sent. -/
inductive AuthOutcome where
  | ok (user : StaffUser)
  | denied (status : Nat) (error : String) (message : String)
deriving DecidableEq

/-- Middleware `authenticateToken`: extract the bearer token, verify it,
resolve the staff record via `Staff.findById(decoded.userId)`, then check
`isActive`, `isAccountLocked`, and whether the token was issued before the
last password change (`decoded.iat < floor(passwordChangedAt / 1000)`, with
`createdAt` as the fallback timestamp). -/
def authenticateToken (db : List StaffUser) (secret : String)
    (token : Option SignedToken) (nowMs : Nat) : AuthOutcome :=
  match token with
  | none => .denied 401 "Authentication Required" "Access token is required"
  | some t =>
    match jwtVerify t secret (nowMs / 1000) with
    | .error .jsonWebTokenError =>
      .denied 401 "Invalid Token" "The provided token is invalid"
    | .error .tokenExpiredError =>
      .denied 401 "Token Expired" "Your session has expired. Please log in again."
    | .ok decoded =>
      match findById db decoded.userId with
      | none => .denied 401 "Authentication Failed" "User not found"
      | some user =>
        if !user.isActive then
          .denied 401 "Account Disabled"
            "Your account has been disabled. Please contact an administrator."
        else if isAccountLocked user nowMs then
          .denied 401 "Account Locked"
            "Your account has been temporarily locked due to multiple failed login attempts."
        else if decoded.iat < (user.passwordChangedAt.getD user.createdAt) / 1000 then
          .denied 401 "Token Invalid" "Please log in again after password change"
        else
          .ok user

/-! ## Resource-level checks -/

/-- Outcome of `requireResidentAccess`: proceed, or a terminal response. -/
inductive ResidentAccess where
  | allow
  | denied (status : Nat) (error : String)
deriving DecidableEq

/-- Middleware `requireResidentAccess`: admins access every resident; others
need assignment to the resident, with senior carers allowed across their
facility; a missing resident id is a 400. -/
def requireResidentAccess (user : StaffUser) (residentId : Option String) :
    ResidentAccess :=
  match residentId with
  | none => .denied 400 "Bad Request"
  | some rid =>
    if user.accessLevel == AccessLevel.admin then .allow
    else
      let hasAccess := user.assignedResidents.contains rid ||
        user.accessLevel == AccessLevel.senior
      if !hasAccess then .denied 403 "Access Denied"
      else .allow

/-- dailyLogs `PUT /:id` ownership check:
`log.createdBy.toString() === req.user.id || ['Admin', 'Senior'].includes(req.user.role)`. -/
def canEditLog (logCreatedBy : String) (userId : String) (userRole : String) : Bool :=
  logCreatedBy == userId || ["Admin", "Senior"].contains userRole

/-! ## The audit logger middleware -/

/-- auditLogger.js `sensitiveEndpoints`: URLs that force an audit entry. -/
def sensitiveEndpoints : List String :=
  ["/api/auth", "/api/residents", "/api/care-plans", "/api/daily-logs",
   "/api/staff", "/api/reports", "/api/risk-assessments"]

/-- auditLogger.js `requiresAuditLogging(url)`:
`sensitiveEndpoints.some(endpoint => url.startsWith(endpoint))`. -/
def requiresAuditLogging (url : String) : Bool :=
  sensitiveEndpoints.any (fun endpoint => endpoint.data.isPrefixOf url.data)

/-- The part of a gate-level audit entry the claims are about: the event tag,
the actor it is attributed to, and the response status it records. -/
structure AuditEntry where
  eventType : String
  userId : String
  statusCode : Nat
deriving DecidableEq

/-- auditLogger.js `extractUserInfo`: `req.user?.id || 'anonymous'`. -/
def extractUserId (reqUser : Option StaffUser) : String :=
  match reqUser with
  | some u => u._id
  | none => "anonymous"

/-- The `res.send` override of the `auditLogger` middleware: when the URL is a
sensitive endpoint or the status is an error (`>= 400`), exactly one
`API_ACCESS` audit entry is appended for the request; otherwise none. -/
def auditLoggerOnSend (url : String) (reqUser : Option StaffUser)
    (statusCode : Nat) : List AuditEntry :=
  if requiresAuditLogging url || decide (400 ≤ statusCode) then
    [{ eventType := "API_ACCESS", userId := extractUserId reqUser,
       statusCode := statusCode }]
  else []

/-- Result of one gated request: the response status, the audit entries the
`auditLogger` middleware produced for it, and whether the business handler
ran. -/
structure GateResult where
  status : Nat
  auditEntries : List AuditEntry
  handlerRan : Bool
deriving DecidableEq

/-- One request through the composed pipeline as mounted in the server:
`auditLogger` wraps the response, `authenticateToken` gates it, an optional
`requirePermission(p)` middleware may follow, and the business handler
(returning its response status) runs last.  `req.user` is unset on
authentication denials and set to the resolved record afterwards. -/
def gatedRequest (db : List StaffUser) (secret : String)
    (token : Option SignedToken) (nowMs : Nat) (url : String)
    (requiredPermission : Option String) (handler : StaffUser → Nat) :
    GateResult :=
  match authenticateToken db secret token nowMs with
  | .denied st _ _ =>
    { status := st, auditEntries := auditLoggerOnSend url none st,
      handlerRan := false }
  | .ok user =>
    match requiredPermission with
    | some p =>
      if !(hasPermission user.accessLevel p) then
        { status := 403, auditEntries := auditLoggerOnSend url (some user) 403,
          handlerRan := false }
      else
        let st := handler user
        { status := st, auditEntries := auditLoggerOnSend url (some user) st,
          handlerRan := true }
    | none =>
      let st := handler user
      { status := st, auditEntries := auditLoggerOnSend url (some user) st,
        handlerRan := true }

/-! ## The audit recorder (auditLogger.js `auditCareEvent`) -/

/-- A `CARE_EVENT` audit entry as built by `auditCareEvent`: the details are
redacted before anything is written. -/
structure CareAuditEntry where
  eventType : String
  careEventType : String
  userId : String
  details : JVal

/-- The observable state the audit recorder writes to: the dedicated audit
log file, the operational application log (`logger.info`), and the
operational error log (`logger.error`). -/
structure OpsState where
  auditFile : List CareAuditEntry
  appLog : List CareAuditEntry
  opErrors : List String

/-- `fs.appendFile` on the audit log file: the sink either accepts the write
or the returned promise rejects. -/
def fsAppendFile (sinkOk : Bool) : Except String Unit :=
  if sinkOk then .ok () else .error "EIO"

/-- auditLogger.js `auditCareEvent(eventType, details, userId)`: builds the
redacted entry, logs it via `logger.info`, and appends it to the audit file
with the rejection swallowed into `logger.error`
(`…appendFile(…).catch(err => logger.error(…))`), so the caller always gets a
normal return (`Except.ok`). -/
def auditCareEvent (sinkOk : Bool) (eventType : String) (details : JVal)
    (userId : String) (st : OpsState) : Except String OpsState :=
  let auditEntry : CareAuditEntry :=
    { eventType := "CARE_EVENT", careEventType := eventType, userId := userId,
      details := redactSensitiveData details }
  let st1 : OpsState := { st with appLog := st.appLog ++ [auditEntry] }
  match fsAppendFile sinkOk with
  | .ok _ => .ok { st1 with auditFile := st1.auditFile ++ [auditEntry] }
  | .error e => .ok { st1 with opErrors := st1.opErrors ++ [e] }

/-- A business handler (dailyLogs `POST /`) that records its audit event and
then sends its 201 response; a raised audit error would surface as a 500. -/
def businessWithAudit (sinkOk : Bool) (details : JVal) (userId : String)
    (st : OpsState) : Nat × OpsState :=
  match auditCareEvent sinkOk "DAILY_LOG_CREATED" details userId st with
  | .ok st2 => (201, st2)
  | .error _ => (500, st)

/-! ## The refresh route (auth.js `POST /api/auth/refresh`) -/

/-- auth.js refresh handler: verify the refresh token, resolve
`Staff.findById(decoded.id)`, reject a missing or inactive user, and issue a
fresh pair via `generateTokens`; every failure inside the `try` is surfaced
as a 401 `Invalid refresh token`. -/
def refreshRoute (db : List StaffUser) (secret : String)
    (refreshToken : Option SignedToken) (nowMs : Nat) :
    Except (Nat × String) (SignedToken × SignedToken) :=
  match refreshToken with
  | none => .error (401, "Refresh token required")
  | some rt =>
    match jwtVerify rt secret (nowMs / 1000) with
    | .error _ => .error (401, "Invalid refresh token")
    | .ok decoded =>
      match findById db decoded.id with
      | none => .error (401, "Invalid refresh token")
      | some user =>
        if !user.isActive then .error (401, "Invalid refresh token")
        else .ok (generateTokens user secret nowMs)

/-! ## Inversion lemmas for the gate -/

/-- A successful `jwt.verify` returns the token's own payload. -/
theorem jwtVerify_ok_inv (t : SignedToken) (secret : String) (clockSec : Nat)
    (decoded : TokenPayload) (h : jwtVerify t secret clockSec = .ok decoded) :
    decoded = t.payload := by
  unfold jwtVerify at h
  split at h
  · exact absurd h (by simp)
  · split at h
    · exact absurd h (by simp)
    · simpa using h.symm

/-- A successful `jwt.verify` also certifies the signature and the expiry
window. -/
theorem jwtVerify_ok_checks (t : SignedToken) (secret : String) (clockSec : Nat)
    (decoded : TokenPayload) (h : jwtVerify t secret clockSec = .ok decoded) :
    t.secret = secret ∧ clockSec < t.payload.exp := by
  unfold jwtVerify at h
  split at h
  · exact absurd h (by simp)
  · split at h
    · exact absurd h (by simp)
    · rename_i hsig hexp
      refine ⟨?_, Nat.lt_of_not_le (fun hle => hexp hle)⟩
      simpa using hsig

/-- Valid signature and unexpired clock make `jwt.verify` succeed. -/
theorem jwtVerify_ok_of_checks (t : SignedToken) (secret : String)
    (clockSec : Nat) (hsig : t.secret = secret)
    (hexp : clockSec < t.payload.exp) :
    jwtVerify t secret clockSec = .ok t.payload := by
  unfold jwtVerify
  simp [hsig, Nat.not_le.mpr hexp]

/-- When the gate lets a request through, the resolved record was looked up
under the token's `userId` claim and passed the active, lock, and staleness
checks. -/
theorem authenticateToken_ok_inv (db : List StaffUser) (secret : String)
    (t : SignedToken) (nowMs : Nat) (u : StaffUser)
    (h : authenticateToken db secret (some t) nowMs = .ok u) :
    findById db t.payload.userId = some u ∧ u.isActive = true ∧
      isAccountLocked u nowMs = false ∧
      ¬ t.payload.iat < (u.passwordChangedAt.getD u.createdAt) / 1000 := by
  simp only [authenticateToken] at h
  split at h
  · simp at h
  · simp at h
  · rename_i decoded hv
    have hdec := jwtVerify_ok_inv t secret (nowMs / 1000) decoded hv
    subst hdec
    split at h
    · simp at h
    · rename_i w hf
      split at h
      · simp at h
      · split at h
        · simp at h
        · split at h
          · simp at h
          · rename_i hact hlock hstale
            have hw : w = u := by simpa using h
            subst hw
            refine ⟨hf, ?_, ?_, hstale⟩
            · simpa using hact
            · simpa using hlock

/-- Every denial the gate produces carries status 401 and one of its seven
fixed error/message pairs. -/
theorem authenticateToken_denied_inv (db : List StaffUser) (secret : String)
    (tok : Option SignedToken) (nowMs : Nat) (st : Nat) (e m : String)
    (h : authenticateToken db secret tok nowMs = .denied st e m) :
    st = 401 ∧
      (e, m) ∈ [("Authentication Required", "Access token is required"),
        ("Invalid Token", "The provided token is invalid"),
        ("Token Expired", "Your session has expired. Please log in again."),
        ("Authentication Failed", "User not found"),
        ("Account Disabled",
          "Your account has been disabled. Please contact an administrator."),
        ("Account Locked",
          "Your account has been temporarily locked due to multiple failed login attempts."),
        ("Token Invalid", "Please log in again after password change")] := by
  cases tok with
  | none =>
    simp only [authenticateToken] at h
    cases h
    exact ⟨rfl, by simp⟩
  | some t =>
    simp only [authenticateToken] at h
    split at h
    · cases h; exact ⟨rfl, by simp⟩
    · cases h; exact ⟨rfl, by simp⟩
    · split at h
      · cases h; exact ⟨rfl, by simp⟩
      · split at h
        · cases h; exact ⟨rfl, by simp⟩
        · split at h
          · cases h; exact ⟨rfl, by simp⟩
          · split at h
            · cases h; exact ⟨rfl, by simp⟩
            · simp at h

/-- On a sensitive endpoint the audit middleware emits exactly one entry,
tagged with the response status and the request's actor. -/
theorem auditLoggerOnSend_sensitive (url : String) (reqUser : Option StaffUser)
    (statusCode : Nat) (hsens : requiresAuditLogging url = true) :
    auditLoggerOnSend url reqUser statusCode =
      [{ eventType := "API_ACCESS", userId := extractUserId reqUser,
         statusCode := statusCode }] := by
  simp [auditLoggerOnSend, hsens]

/-! ## Concrete fixtures used by the closed checks -/

/-- A live base-level staff record (active, unlocked, credentials unchanged
since the epoch). -/
def sampleUser : StaffUser :=
  { _id := "u1", email := "carer@example.org", role := "Carer",
    accessLevel := .carer, facilityId := "f1", isActive := true,
    accountLocked := false, lockUntil := none, passwordChangedAt := some 0,
    createdAt := 0, assignedResidents := [] }

/-! ## Claim C1 -/

/-- Claim C1: the token codec round-trip half holds — the access token issued
by `generateTokens` verifies within the 7-day window and its payload carries
the issuing principal id under `id`, and after the window verification fails
with `TokenExpiredError` — but the gated request path does not recover the
issuing principal: `authenticateToken` resolves `Staff.findById(decoded.userId)`
while `generateTokens` signs the id under `id` and never sets `userId`, so the
gate denies 401 `User not found` even for a fresh token with the issuing
principal present in the store. -/
theorem issuedAccessToken_never_resolved_by_gate :
    (generateTokens sampleUser "secret" 0).1.payload.id = some "u1" ∧
    (generateTokens sampleUser "secret" 0).1.payload.userId = none ∧
    jwtVerify (generateTokens sampleUser "secret" 0).1 "secret" (1000 / 1000) =
      .ok (generateTokens sampleUser "secret" 0).1.payload ∧
    jwtVerify (generateTokens sampleUser "secret" 0).1 "secret" (604801000 / 1000) =
      .error .tokenExpiredError ∧
    authenticateToken [sampleUser] "secret"
        (some (generateTokens sampleUser "secret" 0).1) 1000 =
      .denied 401 "Authentication Failed" "User not found" :=
  ⟨rfl, rfl, rfl, rfl, rfl⟩

/-! ## Claim C2 -/

/-- A staff record whose `lockUntil` lies in the future while the
`accountLocked` flag is clear. -/
def lockClearUser : StaffUser :=
  { _id := "u2", email := "locked@example.org", role := "Carer",
    accessLevel := .carer, facilityId := "f1", isActive := true,
    accountLocked := false, lockUntil := some 2000000000000,
    passwordChangedAt := some 0, createdAt := 0, assignedResidents := [] }

/-- A bearer token that resolves `lockClearUser` through the gate. -/
def lockClearToken : SignedToken :=
  { payload := { id := none, userId := some "u2", email := none, role := none,
                 facilityId := none, iat := 5, exp := 2000 },
    secret := "secret" }

/-- Claim C2 counterexample: at time 1000000 ms the record's `lockUntil`
(2000000000000 ms) lies in the future, yet because `accountLocked` is false
the `isAccountLocked` virtual is false and the gate admits the request — the
business handler runs and the response is its 200, not a 401/403 denial. -/
theorem gate_admits_future_lockUntil_without_flag :
    lockClearUser.lockUntil = some 2000000000000 ∧ 1000000 < 2000000000000 ∧
    gatedRequest [lockClearUser] "secret" (some lockClearToken) 1000000
        "/api/residents" none (fun _ => 200) =
      { status := 200,
        auditEntries := [{ eventType := "API_ACCESS", userId := "u2",
                           statusCode := 200 }],
        handlerRan := true } :=
  ⟨rfl, by decide, rfl⟩

/-- Claim C2 (amended): a principal whose record is inactive, or whose
`accountLocked` flag is set with `lockUntil` in the future (the
`isAccountLocked` virtual), is denied with 401 on every gated request and the
business handler is never invoked, whatever the role or capabilities; a
future `lockUntil` alone, with the flag clear, does not deny. -/
theorem gate_denies_inactive_or_locked (db : List StaffUser) (secret : String)
    (t : SignedToken) (nowMs : Nat) (url : String) (rp : Option String)
    (handler : StaffUser → Nat) (u : StaffUser)
    (hfind : findById db t.payload.userId = some u)
    (hbad : u.isActive = false ∨ isAccountLocked u nowMs = true) :
    ∃ e m, authenticateToken db secret (some t) nowMs =
        .denied 401 e m ∧
      gatedRequest db secret (some t) nowMs url rp handler =
        { status := 401, auditEntries := auditLoggerOnSend url none 401,
          handlerRan := false } := by
  cases h : authenticateToken db secret (some t) nowMs with
  | ok w =>
    obtain ⟨hf, hact, hlock, -⟩ := authenticateToken_ok_inv db secret t nowMs w h
    rw [hfind] at hf
    obtain rfl : u = w := by simpa using hf
    rcases hbad with hb | hb
    · rw [hact] at hb; cases hb
    · rw [hlock] at hb; cases hb
  | denied st e m =>
    obtain ⟨rfl, -⟩ :=
      authenticateToken_denied_inv db secret (some t) nowMs st e m h
    exact ⟨e, m, rfl, by simp [gatedRequest, h]⟩

/-- Claim C2 witness: an inactive record is denied 401 and the handler does
not run. -/
def inactiveUser : StaffUser :=
  { _id := "u7", email := "gone@example.org", role := "Carer",
    accessLevel := .carer, facilityId := "f1", isActive := false,
    accountLocked := false, lockUntil := none, passwordChangedAt := some 0,
    createdAt := 0, assignedResidents := [] }

/-- A bearer token that resolves `inactiveUser` through the gate. -/
def inactiveUserToken : SignedToken :=
  { payload := { id := none, userId := some "u7", email := none, role := none,
                 facilityId := none, iat := 5, exp := 2000 },
    secret := "secret" }

/-- Claim C2 witness statement: concrete instance of the amended claim. -/
theorem gate_denies_inactive_witness :
    ∃ e m, authenticateToken [inactiveUser] "secret" (some inactiveUserToken)
        1000000 = .denied 401 e m ∧
      gatedRequest [inactiveUser] "secret" (some inactiveUserToken) 1000000
          "/api/residents" none (fun _ => 200) =
        { status := 401,
          auditEntries := auditLoggerOnSend "/api/residents" none 401,
          handlerRan := false } :=
  gate_denies_inactive_or_locked [inactiveUser] "secret" inactiveUserToken
    1000000 "/api/residents" none (fun _ => 200) inactiveUser rfl (Or.inl rfl)

/-! ## Claim C3 -/

/-- A staff record whose password was changed at 1800 ms. -/
def changedUser : StaffUser :=
  { _id := "u3", email := "changed@example.org", role := "Carer",
    accessLevel := .carer, facilityId := "f1", isActive := true,
    accountLocked := false, lockUntil := none, passwordChangedAt := some 1800,
    createdAt := 0, assignedResidents := [] }

/-- A token for `changedUser` stamped at 1500 ms, i.e. `iat = 1500 / 1000 = 1`
(`jsonwebtoken` stamps `iat` in whole seconds), before the 1800 ms password
change. -/
def sameSecondToken : SignedToken :=
  { payload := { id := some "u3", userId := some "u3", email := none,
                 role := none, facilityId := none, iat := 1500 / 1000,
                 exp := 1000000 },
    secret := "secret" }

/-- Claim C3 counterexample: `sameSecondToken` was issued at 1500 ms, before
the credential change at 1800 ms, and is presented at 2500 ms, after the
change — yet the gate accepts it, because the staleness check compares whole
seconds (`decoded.iat < floor(passwordChangedAt / 1000)` is `1 < 1`, false). -/
theorem gate_accepts_same_second_stale_token :
    changedUser.passwordChangedAt = some 1800 ∧ 1500 < 1800 ∧
    sameSecondToken.payload.iat = 1500 / 1000 ∧
    authenticateToken [changedUser] "secret" (some sameSecondToken) 2500 =
      .ok changedUser :=
  ⟨rfl, by decide, rfl, rfl⟩

/-- Claim C3 (amended): a structurally valid, unexpired token whose `iat`
(whole seconds) is strictly below the credential-change timestamp truncated
to seconds is rejected 401 (`Token Invalid`) by the gate, even though its
signature and expiry are fine; a token stamped within the same second as the
change is accepted. -/
theorem gate_rejects_stale_token (db : List StaffUser) (secret : String)
    (t : SignedToken) (nowMs : Nat) (u : StaffUser)
    (hsig : t.secret = secret)
    (hexp : nowMs / 1000 < t.payload.exp)
    (hfind : findById db t.payload.userId = some u)
    (hact : u.isActive = true)
    (hlock : isAccountLocked u nowMs = false)
    (hstale : t.payload.iat < (u.passwordChangedAt.getD u.createdAt) / 1000) :
    authenticateToken db secret (some t) nowMs =
      .denied 401 "Token Invalid" "Please log in again after password change" := by
  have hv := jwtVerify_ok_of_checks t secret (nowMs / 1000) hsig hexp
  simp [authenticateToken, hv, hfind, hact, hlock, hstale]

/-- A token for `changedUser` stamped in an earlier whole second (issued at
800 ms, so `iat = 0`) than the 1800 ms credential change. -/
def earlierSecondToken : SignedToken :=
  { payload := { id := some "u3", userId := some "u3", email := none,
                 role := none, facilityId := none, iat := 800 / 1000,
                 exp := 1000000 },
    secret := "secret" }

/-- Claim C3 witness statement: concrete instance of the amended claim. -/
theorem gate_rejects_stale_token_witness :
    authenticateToken [changedUser] "secret" (some earlierSecondToken) 2500 =
      .denied 401 "Token Invalid" "Please log in again after password change" :=
  gate_rejects_stale_token [changedUser] "secret" earlierSecondToken 2500
    changedUser rfl (by decide) rfl rfl rfl (by decide)

/-! ## Claim C4 -/

/-- Claim C4: `hasPermission` is the deterministic static table of
Staff.js — the base role holds exactly the four enumerated capabilities, the
senior role holds exactly those four plus plan authorship, reporting and task
management (a strict superset), and the admin wildcard satisfies every
capability check. -/
theorem hasPermission_matches_static_table :
    (∀ c, hasPermission .admin c = true) ∧
    (∀ c, hasPermission .carer c = true ↔
      c ∈ (["view_residents", "create_logs", "view_care_plans",
            "complete_tasks"] : List String)) ∧
    (∀ c, hasPermission .senior c = true ↔
      c ∈ (["view_residents", "create_logs", "view_care_plans",
            "complete_tasks", "create_care_plans", "view_reports",
            "manage_tasks"] : List String)) ∧
    (∀ c, hasPermission .carer c = true → hasPermission .senior c = true) ∧
    hasPermission .senior "create_care_plans" = true ∧
    hasPermission .carer "create_care_plans" = false ∧
    hasPermission .senior "view_reports" = true ∧
    hasPermission .carer "view_reports" = false ∧
    hasPermission .senior "manage_tasks" = true ∧
    hasPermission .carer "manage_tasks" = false := by
  refine ⟨?_, ?_, ?_, ?_, by decide, by decide, by decide, by decide,
    by decide, by decide⟩
  · intro c; simp [hasPermission, permissionsTable]
  · intro c; simp [hasPermission, permissionsTable]
  · intro c; simp [hasPermission, permissionsTable]
  · intro c
    simp only [hasPermission, permissionsTable, Bool.or_eq_true, List.elem_iff]
    rintro (h | h)
    · simp at h
    · simp at h
      rcases h with rfl | rfl | rfl | rfl <;> simp

/-- Claim C4 witness statement: concrete instances of the quantified table
clauses. -/
theorem hasPermission_matches_static_table_witness :
    hasPermission .admin "anything_at_all" = true ∧
    hasPermission .carer "create_logs" = true ∧
    hasPermission .senior "create_logs" = true :=
  ⟨hasPermission_matches_static_table.1 "anything_at_all",
   (hasPermission_matches_static_table.2.1 "create_logs").mpr (by decide),
   hasPermission_matches_static_table.2.2.2.1 "create_logs"
     ((hasPermission_matches_static_table.2.1 "create_logs").mpr (by decide))⟩

/-! ## Claim C5 -/

/-- Claim C5: the ownership/escalation predicate of the daily-log update route
is true exactly when the principal created the log or the role is at or above
the elevated threshold; and on resident resources, a senior or admin principal
is allowed even when not assigned to (not owning) the resident, while a
base-role principal is denied 403 on a resident it is not assigned to. -/
theorem ownsOrEscalated_exactly :
    (∀ createdBy uid r, canEditLog createdBy uid r = true ↔
      (createdBy = uid ∨ r = "Admin" ∨ r = "Senior")) ∧
    (∀ u rid, u.accessLevel = AccessLevel.senior ∨
        u.accessLevel = AccessLevel.admin →
      requireResidentAccess u (some rid) = .allow) ∧
    (∀ u rid, u.accessLevel = AccessLevel.carer →
      u.assignedResidents.contains rid = false →
      requireResidentAccess u (some rid) = .denied 403 "Access Denied") := by
  refine ⟨?_, ?_, ?_⟩
  · intro createdBy uid r
    simp only [canEditLog, Bool.or_eq_true, beq_iff_eq, List.elem_iff]
    simp [eq_comm, or_assoc]
  · rintro u rid (h | h) <;> simp [requireResidentAccess, h]
  · intro u rid h hassign
    have hmem : rid ∉ u.assignedResidents := by simpa using hassign
    simp [requireResidentAccess, h, hmem]

/-- Claim C5 witness statement: concrete instances — the creator may edit its
own log, a senior may act on an unassigned resident, a base carer is denied
403 on an unassigned resident. -/
theorem ownsOrEscalated_exactly_witness :
    canEditLog "u1" "u1" "Carer" = true ∧
    requireResidentAccess
      { sampleUser with accessLevel := AccessLevel.senior } (some "r9") =
        .allow ∧
    requireResidentAccess sampleUser (some "r9") =
      .denied 403 "Access Denied" :=
  ⟨(ownsOrEscalated_exactly.1 "u1" "u1" "Carer").mpr (Or.inl rfl),
   ownsOrEscalated_exactly.2.1
     { sampleUser with accessLevel := AccessLevel.senior } "r9" (Or.inl rfl),
   ownsOrEscalated_exactly.2.2 sampleUser "r9" rfl rfl⟩

/-! ## Claim C6 -/

/-- Claim C6: the Audit Recorder's redaction is idempotent — running
`redactSensitiveData` on an already-redacted payload, nested objects and
arrays included, returns an identical payload, with no double-marking and no
reappearance of previously-redacted values. -/
theorem redactSensitiveData_idempotent (v : JVal) :
    redactSensitiveData (redactSensitiveData v) = redactSensitiveData v :=
  redact_idem v

/-! ## Claim C7 -/

/-- Claim C7: `auditCareEvent` never raises to its caller — for every event
and every outcome of the underlying append it returns normally
(`Except.ok`); when the sink fails the audit file is untouched and the
failure only lands in the operational error log, and a business handler that
records its audit event still sends its own 201 response. -/
theorem auditCareEvent_never_raises (sinkOk : Bool) (eventType : String)
    (details : JVal) (userId : String) (st : OpsState) :
    ∃ st2, auditCareEvent sinkOk eventType details userId st = .ok st2 ∧
      (businessWithAudit sinkOk details userId st).1 = 201 ∧
      (sinkOk = false →
        st2.auditFile = st.auditFile ∧
        st2.opErrors = st.opErrors ++ ["EIO"]) := by
  cases sinkOk with
  | true =>
    exact ⟨_, rfl, rfl, fun h => by cases h⟩
  | false =>
    exact ⟨_, rfl, rfl, fun _ => ⟨rfl, rfl⟩⟩

/-- Claim C7 witness statement: with the sink down, recording a login event
over a password-bearing payload returns normally, leaves the audit file
empty, logs the fault, and the business 201 stands. -/
theorem auditCareEvent_never_raises_witness :
    ∃ st2, auditCareEvent false "USER_LOGIN"
        (JVal.obj (.cons "password" (.str "hunter2") .nil)) "u1"
        { auditFile := [], appLog := [], opErrors := [] } = .ok st2 ∧
      (businessWithAudit false
        (JVal.obj (.cons "password" (.str "hunter2") .nil)) "u1"
        { auditFile := [], appLog := [], opErrors := [] }).1 = 201 ∧
      (false = false →
        st2.auditFile = ([] : List CareAuditEntry) ∧
        st2.opErrors = ([] : List String) ++ ["EIO"]) :=
  auditCareEvent_never_raises false "USER_LOGIN"
    (JVal.obj (.cons "password" (.str "hunter2") .nil)) "u1"
    { auditFile := [], appLog := [], opErrors := [] }

/-! ## Claim C8 -/

/-- Every terminal outcome of the pipeline hands the audit middleware the
response status together with the request's `req.user` attribution. -/
theorem gatedRequest_entries_spec (db : List StaffUser) (secret : String)
    (token : Option SignedToken) (nowMs : Nat) (url : String)
    (rp : Option String) (handler : StaffUser → Nat) :
    ∃ ru, (gatedRequest db secret token nowMs url rp handler).auditEntries =
      auditLoggerOnSend url ru
        (gatedRequest db secret token nowMs url rp handler).status := by
  cases h : authenticateToken db secret token nowMs with
  | denied st e m => exact ⟨none, by simp [gatedRequest, h]⟩
  | ok u =>
    cases rp with
    | none => exact ⟨some u, by simp [gatedRequest, h]⟩
    | some p =>
      by_cases hp : hasPermission u.accessLevel p = true
      · exact ⟨some u, by simp [gatedRequest, h, hp]⟩
      · have hp' : hasPermission u.accessLevel p = false := by
          cases hpp : hasPermission u.accessLevel p
          · rfl
          · exact absurd hpp hp
        exact ⟨some u, by simp [gatedRequest, h, hp']⟩

/-- Claim C8 counterexample: a request with no bearer token to a sensitive
endpoint is rejected 401 — and the audit middleware records one entry for it
(attributed to the anonymous actor), because its trigger is
`requiresAuditLogging(url) || statusCode >= 400`; the claim's "records
nothing" branch does not hold. -/
theorem absent_token_still_audited :
    gatedRequest [] "secret" none 0 "/api/residents" none (fun _ => 200) =
      { status := 401,
        auditEntries := [{ eventType := "API_ACCESS", userId := "anonymous",
                           statusCode := 401 }],
        handlerRan := false } := rfl

/-- Claim C8 (amended): on every sensitive endpoint, each terminal outcome of
the gate (401, 403, handler success, handler error status) produces exactly
one gate-level audit record, tagged `API_ACCESS` and carrying the response's
own status code; an absent bearer token yields a 401 with one record
attributed to the anonymous actor, not zero records. -/
theorem gate_audit_exactly_one (db : List StaffUser) (secret : String)
    (token : Option SignedToken) (nowMs : Nat) (url : String)
    (rp : Option String) (handler : StaffUser → Nat)
    (hsens : requiresAuditLogging url = true) :
    (gatedRequest db secret token nowMs url rp handler).auditEntries.length = 1 ∧
    (∀ e ∈ (gatedRequest db secret token nowMs url rp handler).auditEntries,
      e.eventType = "API_ACCESS" ∧
      e.statusCode = (gatedRequest db secret token nowMs url rp handler).status) ∧
    (token = none →
      (gatedRequest db secret token nowMs url rp handler).status = 401 ∧
      (gatedRequest db secret token nowMs url rp handler).auditEntries =
        [{ eventType := "API_ACCESS", userId := "anonymous",
           statusCode := 401 }]) := by
  obtain ⟨ru, hre⟩ :=
    gatedRequest_entries_spec db secret token nowMs url rp handler
  rw [auditLoggerOnSend_sensitive url ru _ hsens] at hre
  refine ⟨by rw [hre]; rfl, ?_, ?_⟩
  · intro e he
    rw [hre] at he
    simp at he
    subst he
    exact ⟨rfl, rfl⟩
  · rintro rfl
    have hstat :
        (gatedRequest db secret none nowMs url rp handler).status = 401 := by
      simp [gatedRequest, authenticateToken]
    refine ⟨hstat, ?_⟩
    rw [hre, hstat]
    have hru :
        (gatedRequest db secret none nowMs url rp handler).auditEntries =
          auditLoggerOnSend url none 401 := by
      simp [gatedRequest, authenticateToken]
    rw [hre, hstat, auditLoggerOnSend_sensitive url none 401 hsens] at hru
    simp [extractUserId] at hru
    simp [hru, extractUserId]

/-- Claim C8 witness statement: concrete instance of the amended claim on a
sensitive endpoint with a valid request (handler success). -/
theorem gate_audit_exactly_one_witness :
    (gatedRequest [lockClearUser] "secret" (some lockClearToken) 1000000
      "/api/daily-logs" none (fun _ => 201)).auditEntries.length = 1 ∧
    (∀ e ∈ (gatedRequest [lockClearUser] "secret" (some lockClearToken)
        1000000 "/api/daily-logs" none (fun _ => 201)).auditEntries,
      e.eventType = "API_ACCESS" ∧
      e.statusCode = (gatedRequest [lockClearUser] "secret"
        (some lockClearToken) 1000000 "/api/daily-logs" none
        (fun _ => 201)).status) ∧
    (some lockClearToken = none →
      (gatedRequest [lockClearUser] "secret" (some lockClearToken) 1000000
        "/api/daily-logs" none (fun _ => 201)).status = 401 ∧
      (gatedRequest [lockClearUser] "secret" (some lockClearToken) 1000000
        "/api/daily-logs" none (fun _ => 201)).auditEntries =
        [{ eventType := "API_ACCESS", userId := "anonymous",
           statusCode := 401 }]) :=
  gate_audit_exactly_one [lockClearUser] "secret" (some lockClearToken)
    1000000 "/api/daily-logs" none (fun _ => 201) (by decide)

/-! ## Claim C9 -/

/-- A token for `sampleUser` that expired at second 1. -/
def expiredToken : SignedToken :=
  { payload := { id := some "u1", userId := some "u1", email := none,
                 role := none, facilityId := none, iat := 0, exp := 1 },
    secret := "secret" }

/-- A token signed with the wrong secret. -/
def badSigToken : SignedToken :=
  { payload := { id := some "u1", userId := some "u1", email := none,
                 role := none, facilityId := none, iat := 0,
                 exp := 1000000000 },
    secret := "other" }

/-- Claim C9 counterexample: an expired token and an invalid-signature token
are both denied 401, but with different caller-visible error labels and
messages — the response body does reveal which sub-reason applied, contrary
to the claim's non-specific generic message. -/
theorem auth_failure_messages_reveal_subreason :
    authenticateToken [] "secret" (some expiredToken) 2000000 =
      .denied 401 "Token Expired"
        "Your session has expired. Please log in again." ∧
    authenticateToken [] "secret" (some badSigToken) 2000000 =
      .denied 401 "Invalid Token" "The provided token is invalid" ∧
    ("Token Expired", "Your session has expired. Please log in again.") ≠
      ("Invalid Token", "The provided token is invalid") :=
  ⟨rfl, rfl, by decide⟩

/-- Claim C9 (amended): every authentication failure of the gate — absent,
garbled, expired or invalid-signature token, unknown user, disabled or
locked account, stale token after a credential change — is surfaced with
status 401, but the response carries one of seven sub-reason-specific
error/message pairs rather than one non-specific message. -/
theorem auth_failures_all_401_with_specific_message (db : List StaffUser)
    (secret : String) (tok : Option SignedToken) (nowMs : Nat) (st : Nat)
    (e m : String)
    (h : authenticateToken db secret tok nowMs = .denied st e m) :
    st = 401 ∧
      (e, m) ∈ [("Authentication Required", "Access token is required"),
        ("Invalid Token", "The provided token is invalid"),
        ("Token Expired", "Your session has expired. Please log in again."),
        ("Authentication Failed", "User not found"),
        ("Account Disabled",
          "Your account has been disabled. Please contact an administrator."),
        ("Account Locked",
          "Your account has been temporarily locked due to multiple failed login attempts."),
        ("Token Invalid", "Please log in again after password change")] :=
  authenticateToken_denied_inv db secret tok nowMs st e m h

/-- Claim C9 witness statement: concrete instance of the amended claim at the
expired-token denial. -/
theorem auth_failures_all_401_witness :
    (401 : Nat) = 401 ∧
      (("Token Expired", "Your session has expired. Please log in again.") :
          String × String) ∈
        [("Authentication Required", "Access token is required"),
          ("Invalid Token", "The provided token is invalid"),
          ("Token Expired", "Your session has expired. Please log in again."),
          ("Authentication Failed", "User not found"),
          ("Account Disabled",
            "Your account has been disabled. Please contact an administrator."),
          ("Account Locked",
            "Your account has been temporarily locked due to multiple failed login attempts."),
          ("Token Invalid", "Please log in again after password change")] :=
  auth_failures_all_401_with_specific_message [] "secret" (some expiredToken)
    2000000 401 "Token Expired" "Your session has expired. Please log in again."
    rfl

/-! ## Claim C10 -/

/-- Claim C10: the refresh route issues a fresh access/refresh pair whenever
the presented refresh token's signature verifies, it is unexpired, and the
referenced staff record exists and is active — with no comparison of the
token's `iat` against the record's `passwordChangedAt`, so a refresh token
issued before a password change (any `passwordChangedAt`, any `iat`) is still
accepted after the change. -/
theorem refresh_ignores_credential_change (db : List StaffUser)
    (secret : String) (rt : SignedToken) (nowMs : Nat) (u : StaffUser)
    (hsig : rt.secret = secret)
    (hexp : nowMs / 1000 < rt.payload.exp)
    (hfind : findById db rt.payload.id = some u)
    (hact : u.isActive = true) :
    refreshRoute db secret (some rt) nowMs =
      .ok (generateTokens u secret nowMs) := by
  have hv := jwtVerify_ok_of_checks rt secret (nowMs / 1000) hsig hexp
  simp [refreshRoute, hv, hfind, hact]

/-- A staff record whose password was changed at second 5000. -/
def staleRefreshUser : StaffUser :=
  { _id := "u5", email := "reset@example.org", role := "Carer",
    accessLevel := .carer, facilityId := "f1", isActive := true,
    accountLocked := false, lockUntil := none,
    passwordChangedAt := some 5000000, createdAt := 0,
    assignedResidents := [] }

/-- A refresh token for `staleRefreshUser` stamped at second 0, before the
password change. -/
def staleRefreshToken : SignedToken :=
  { payload := { id := some "u5", userId := none, email := none, role := none,
                 facilityId := none, iat := 0, exp := 2592000 },
    secret := "secret" }

/-- Claim C10 witness statement: a refresh token issued before the password
change (its `iat` precedes `passwordChangedAt` by the access gate's own
staleness criterion) is still exchanged for a fresh pair afterwards. -/
theorem refresh_ignores_credential_change_witness :
    staleRefreshToken.payload.iat <
      (staleRefreshUser.passwordChangedAt.getD staleRefreshUser.createdAt)
        / 1000 ∧
    refreshRoute [staleRefreshUser] "secret" (some staleRefreshToken)
        6000000 = .ok (generateTokens staleRefreshUser "secret" 6000000) :=
  ⟨by decide,
   refresh_ignores_credential_change [staleRefreshUser] "secret"
     staleRefreshToken 6000000 staleRefreshUser rfl (by decide) rfl rfl⟩

end SparkCare
